import Mathlib

/-!
Verification of the mcp2518fd CAN-FD controller driver.

The definitions below are a shallow embedding of the driver's register
access engine, frame codec, RAM validator and queue protocol
(src/spi.rs, src/message/{mod,tx,rx}.rs, src/memory/mod.rs,
src/memory/controller/{fifo,filter,configuration}.rs).  Machine integers
are modelled as `Nat` with explicit reductions modulo `2 ^ 32`
(resp. `2 ^ 16` for the u16 casts at RAM call sites); hardware
interaction is modelled against a static chip state (a mock that does
not react to writes), with every SPI transaction recorded in an event
trace; Rust panics (slice-bound violations, `unwrap` of `None`) are a
distinguished `Outcome.panicked` result.
-/

set_option maxRecDepth 8000

namespace MCP2518

/-! ### Bit-level helpers mirroring the `bitfield!` accessors -/

/-- Modulus of the 32-bit registers. -/
def U32_MOD : Nat := 2 ^ 32

/-- Modulus of the 16-bit addresses (`as u16` casts). -/
def U16_MOD : Nat := 2 ^ 16

/-- Read the bit range starting at `lo` of width `width` (bitfield getter). -/
def getBits (v lo width : Nat) : Nat := (v >>> lo) % 2 ^ width

/-- Replace the bit range starting at `lo` of width `width` by `x`
(bitfield setter; the new value is masked to the field width exactly as
the `bitfield!` macro does). -/
def setBits (v lo width x : Nat) : Nat :=
  let v0 := v % U32_MOD
  v0 - getBits v0 lo width * 2 ^ lo + (x % 2 ^ width) * 2 ^ lo

/-- Single-bit bitfield setter. -/
def setBit (v i : Nat) (b : Bool) : Nat := setBits v i 1 (if b then 1 else 0)

/-! ### Frame codec (src/message/mod.rs) -/

/-- The length in DWORDs of the TX and RX header objects. -/
def HEADER_SIZE_DWORDS : Nat := 2

/-- The maximum data buffer (payload) size in bytes. -/
def MAX_FD_BUFFER_SIZE : Nat := 64

/-- Source `dlc_for_len` from src/message/mod.rs: DLC encoding a payload length. -/
def dlc_for_len (len : Nat) (is_fd : Bool) : Option Nat :=
  if is_fd then
    if len ≤ 8 then some len
    else if len = 12 then some 9
    else if len = 16 then some 10
    else if len = 20 then some 11
    else if len = 24 then some 12
    else if len = 32 then some 13
    else if len = 48 then some 14
    else if len = 64 then some 15
    else none
  else
    if len > 8 then none
    else some len

/-- Source `len_for_dlc` from src/message/mod.rs: payload length denoted by a DLC. -/
def len_for_dlc (dlc : Nat) (is_fd : Bool) : Option Nat :=
  if is_fd then
    if dlc ≤ 8 then some dlc
    else if dlc = 9 then some 12
    else if dlc = 10 then some 16
    else if dlc = 11 then some 20
    else if dlc = 12 then some 24
    else if dlc = 13 then some 32
    else if dlc = 14 then some 48
    else if dlc = 15 then some 64
    else none
  else
    if dlc ≤ 8 then some dlc
    else if dlc ≤ 15 then some 8
    else none

/-! ### RAM address validator (src/memory/mod.rs) -/

/-- Base address of the chip's RAM segment. -/
def RAM_BASE_ADDRESS : Nat := 0x400

/-- End address of the chip's RAM segment. -/
def RAM_END_ADDRESS : Nat := 0xBFF

/-- Source `is_valid_ram_address` from src/memory/mod.rs:
`address >= RAM_BASE_ADDRESS && (address + data_size as u32) <= RAM_END_ADDRESS`.
The sum is u32 addition, hence the reduction modulo `2 ^ 32`. -/
def is_valid_ram_address (address data_size : Nat) : Bool :=
  decide (RAM_BASE_ADDRESS ≤ address) &&
    decide ((address + data_size % U32_MOD) % U32_MOD ≤ RAM_END_ADDRESS)

end MCP2518

namespace MCP2518

/-- Claim C3 helper list: the CAN-FD payload lengths above 8 bytes. -/
def FD_LONG_LENGTHS : List Nat := [12, 16, 20, 24, 32, 48, 64]

/-! ### Error taxonomy (src/spi.rs lines 50-93) -/

/-- The driver error enumeration `Error` from src/spi.rs. -/
inductive Error
  | SPIRead
  | SPIWrite
  | InvalidRamAddress (address : Nat)
  | InvalidReadLength (len : Nat)
  | InvalidWriteLength (len : Nat)
  | TxQueueDisabled
  | FifoNotTx
  | FifoTooSmall
  | FifoFull
  | FifoNotRx
  | Other
deriving DecidableEq

/-- The configuration error enumeration `ConfigError` from src/spi.rs. -/
inductive ConfigError
  | ChangeOpModeTimeout
  | ConfigurationModeTimeout
  | SPIFailedRAMEcho
  | PLLNotReady
  | Other (e : Error)
deriving DecidableEq

/-- Source `impl From<Error> for ConfigError` (src/spi.rs lines 86-93): SPI
read/write failures are converted to `ConfigurationModeTimeout`; every
other error is wrapped in `Other`. -/
def configErrorOfError : Error → ConfigError
  | .SPIRead | .SPIWrite => .ConfigurationModeTimeout
  | e => .Other e

/-! ### Chip state and SPI transport model -/

/-- Static hardware state: the value of each SFR and each RAM byte.
The mock chip does not react to writes, which matches the unchanged-state
scenarios of the spec's testable properties. -/
structure Chip where
  sfr : Nat → Nat
  ram : Nat → Nat

/-- A register read transfers 4 bytes, so its value is a u32. -/
def read_sfr_value (chip : Chip) (address : Nat) : Nat := chip.sfr address % U32_MOD

/-- A RAM read transfers bytes. -/
def ram_byte (chip : Chip) (address : Nat) : Nat := chip.ram address % 2 ^ 8

/-- Source `u32::from_le_bytes` over four consecutive RAM bytes. -/
def ram_word (chip : Chip) (address : Nat) : Nat :=
  ram_byte chip address + 2 ^ 8 * ram_byte chip (address + 1) +
    2 ^ 16 * ram_byte chip (address + 2) + 2 ^ 24 * ram_byte chip (address + 3)

/-- Validation performed by `read_ram` (src/spi.rs lines 1160-1167) before
the SPI transaction: RAM bounds first, then the 4-byte-multiple gate. -/
def ram_read_check (address len : Nat) : Option Error :=
  if is_valid_ram_address address len = false then some (.InvalidRamAddress address)
  else if len % 4 ≠ 0 then some (.InvalidReadLength len)
  else none

/-- Validation performed by `write_ram` (src/spi.rs lines 1184-1191). -/
def ram_write_check (address len : Nat) : Option Error :=
  if is_valid_ram_address address len = false then some (.InvalidRamAddress address)
  else if len % 4 ≠ 0 then some (.InvalidWriteLength len)
  else none

/-- Source `read_sfr` transport outcome: `spiOk` tells whether the SPI
transaction succeeds; a failure is reported as `SPIRead`
(src/spi.rs line 1088). -/
def read_sfr_result (chip : Chip) (spiOk : Bool) (address : Nat) : Except Error Nat :=
  if spiOk then .ok (read_sfr_value chip address) else .error .SPIRead

/-- Source `write_sfr` transport outcome: the source maps a failed transaction to
`Error::SPIRead` (src/spi.rs line 1105) even though the data phase of this
operation is a write. -/
def write_sfr_result (spiOk : Bool) (address value : Nat) : Except Error Unit :=
  if spiOk then .ok () else .error .SPIRead

/-- Source `read_ram` outcome: validation gates first, then the transaction,
whose failure is reported as `SPIRead` (src/spi.rs line 1178). -/
def read_ram_result (chip : Chip) (spiOk : Bool) (address len : Nat) :
    Except Error (List Nat) :=
  match ram_read_check address len with
  | some e => .error e
  | none =>
    if spiOk then .ok ((List.range len).map (fun i => ram_byte chip (address + i)))
    else .error .SPIRead

/-- Source `write_ram` outcome: validation gates first, then the transaction,
whose failure is reported as `SPIWrite` (src/spi.rs line 1202). -/
def write_ram_result (spiOk : Bool) (address len : Nat) : Except Error Unit :=
  match ram_write_check address len with
  | some e => .error e
  | none => if spiOk then .ok () else .error .SPIWrite

/-! ### SFR addresses (src/memory/mod.rs `SFRAddress`) -/

/-- Address of `C1CON`. -/
def C1CON_ADDR : Nat := 0x0

/-- Address of `C1TEFCON`. -/
def C1TEFCON_ADDR : Nat := 0x40

/-- Address of `C1TEFSTA`. -/
def C1TEFSTA_ADDR : Nat := 0x44

/-- Address of `C1TEFUA`. -/
def C1TEFUA_ADDR : Nat := 0x48

/-- Address of `C1TXQCON`. -/
def C1TXQCON_ADDR : Nat := 0x50

/-- Address of `C1TXQSTA`. -/
def C1TXQSTA_ADDR : Nat := 0x54

/-- Address of `C1TXQUA`. -/
def C1TXQUA_ADDR : Nat := 0x58

/-- Source `C1FIFOCONn` addresses (FifoControlRegister::get_address_for). -/
def fifoConAddress : Nat → Nat
  | 1 => 0x5C | 2 => 0x68 | 3 => 0x74 | 4 => 0x80
  | 5 => 0x8C | 6 => 0x98 | 7 => 0xA4 | 8 => 0xB0
  | 9 => 0xBC | 10 => 0xC8 | 11 => 0xD4 | 12 => 0xE0
  | 13 => 0xEC | 14 => 0xF8 | 15 => 0x104 | 16 => 0x110
  | 17 => 0x11C | 18 => 0x128 | 19 => 0x134 | 20 => 0x140
  | 21 => 0x14C | 22 => 0x158 | 23 => 0x164 | 24 => 0x170
  | 25 => 0x17C | 26 => 0x188 | 27 => 0x194 | 28 => 0x1A0
  | 29 => 0x1AC | 30 => 0x1B8 | 31 => 0x1C4
  | _ => 0

/-- Source `C1FIFOSTAn` addresses (FifoStatusRegister::get_address_for). -/
def fifoStaAddress : Nat → Nat
  | 1 => 0x60 | 2 => 0x6C | 3 => 0x78 | 4 => 0x84
  | 5 => 0x90 | 6 => 0x9C | 7 => 0xA8 | 8 => 0xB4
  | 9 => 0xC0 | 10 => 0xCC | 11 => 0xD8 | 12 => 0xE4
  | 13 => 0xF0 | 14 => 0xFC | 15 => 0x108 | 16 => 0x114
  | 17 => 0x120 | 18 => 0x12C | 19 => 0x138 | 20 => 0x144
  | 21 => 0x150 | 22 => 0x15C | 23 => 0x168 | 24 => 0x174
  | 25 => 0x180 | 26 => 0x18C | 27 => 0x198 | 28 => 0x1A4
  | 29 => 0x1B0 | 30 => 0x1BC | 31 => 0x1C8
  | _ => 0

/-- Source `C1FIFOUAn` addresses (UserAddressRegister::get_address_for on
`UserAddressKind::Fifo`). -/
def fifoUaAddress : Nat → Nat
  | 1 => 0x64 | 2 => 0x70 | 3 => 0x7C | 4 => 0x88
  | 5 => 0x94 | 6 => 0xA0 | 7 => 0xAC | 8 => 0xB8
  | 9 => 0xC4 | 10 => 0xD0 | 11 => 0xDC | 12 => 0xE8
  | 13 => 0xF4 | 14 => 0x100 | 15 => 0x10C | 16 => 0x118
  | 17 => 0x124 | 18 => 0x130 | 19 => 0x13C | 20 => 0x148
  | 21 => 0x154 | 22 => 0x160 | 23 => 0x16C | 24 => 0x178
  | 25 => 0x184 | 26 => 0x190 | 27 => 0x19C | 28 => 0x1A8
  | 29 => 0x1B4 | 30 => 0x1C0 | 31 => 0x1CC
  | _ => 0

/-- Source `C1FLTCONm` addresses (FilterControlRegister::get_address_for). -/
def filterControlAddress : Nat → Nat
  | 0 => 0x1D0 | 1 => 0x1D4 | 2 => 0x1D8 | 3 => 0x1DC
  | 4 => 0x1E0 | 5 => 0x1E4 | 6 => 0x1E8 | 7 => 0x1EC
  | _ => 0

/-- Source `C1FLTOBJn` addresses (FilterObjectRegister::get_address_for). -/
def filterObjectAddress : Nat → Nat
  | 0 => 0x1F0 | 1 => 0x1F8 | 2 => 0x200 | 3 => 0x208
  | 4 => 0x210 | 5 => 0x218 | 6 => 0x220 | 7 => 0x228
  | 8 => 0x230 | 9 => 0x238 | 10 => 0x240 | 11 => 0x248
  | 12 => 0x250 | 13 => 0x258 | 14 => 0x260 | 15 => 0x268
  | 16 => 0x270 | 17 => 0x278 | 18 => 0x280 | 19 => 0x288
  | 20 => 0x290 | 21 => 0x298 | 22 => 0x2A0 | 23 => 0x2A8
  | 24 => 0x2B0 | 25 => 0x2B8 | 26 => 0x2C0 | 27 => 0x2C8
  | 28 => 0x2D0 | 29 => 0x2D8 | 30 => 0x2E0 | 31 => 0x2E8
  | _ => 0

/-- Source `C1MASKn` addresses (MaskRegister::get_address_for). -/
def maskAddress : Nat → Nat
  | 0 => 0x1F4 | 1 => 0x1FC | 2 => 0x204 | 3 => 0x20C
  | 4 => 0x214 | 5 => 0x21C | 6 => 0x224 | 7 => 0x22C
  | 8 => 0x234 | 9 => 0x23C | 10 => 0x244 | 11 => 0x24C
  | 12 => 0x254 | 13 => 0x25C | 14 => 0x264 | 15 => 0x26C
  | 16 => 0x274 | 17 => 0x27C | 18 => 0x284 | 19 => 0x28C
  | 20 => 0x294 | 21 => 0x29C | 22 => 0x2A4 | 23 => 0x2AC
  | 24 => 0x2B4 | 25 => 0x2BC | 26 => 0x2C4 | 27 => 0x2CC
  | 28 => 0x2D4 | 29 => 0x2DC | 30 => 0x2E4 | 31 => 0x2EC
  | _ => 0

/-! ### Register bitfield views -/

/-- Source `CanControlRegister::txqen` (bit 20). -/
def txqen (v : Nat) : Bool := v.testBit 20

/-- Source `CanControlRegister::stef` (bit 19). -/
def stef (v : Nat) : Bool := v.testBit 19

/-- Source `OperationMode` (src/memory/controller/configuration.rs). -/
inductive OperationMode
  | NormalCanFD
  | Sleep
  | InternalLoopback
  | ListenOnly
  | Configuration
  | ExternalLoopback
  | NormalCan2
  | Restricted
  | Unknown
deriving DecidableEq

/-- Source `OperationMode::try_from` on the 3-bit `_opmod` field, with the
`Unknown` fallback of `CanControlRegister::opmode`. -/
def opModeOfBits : Nat → OperationMode
  | 0 => .NormalCanFD
  | 1 => .Sleep
  | 2 => .InternalLoopback
  | 3 => .ListenOnly
  | 4 => .Configuration
  | 5 => .ExternalLoopback
  | 6 => .NormalCan2
  | 7 => .Restricted
  | _ => .Unknown

/-- Source `u8::from(OperationMode)` (the `#[repr(u8)]` discriminants). -/
def opModeBits : OperationMode → Nat
  | .NormalCanFD => 0
  | .Sleep => 1
  | .InternalLoopback => 2
  | .ListenOnly => 3
  | .Configuration => 4
  | .ExternalLoopback => 5
  | .NormalCan2 => 6
  | .Restricted => 7
  | .Unknown => 0xff

/-- Source `CanControlRegister::opmode` (`_opmod`, bits 23..21). -/
def opmode (v : Nat) : OperationMode := opModeOfBits (getBits v 21 3)

/-- Source `CanControlRegister::set_opmode` (`_set_reqop`, bits 26..24). -/
def set_opmode (v : Nat) (mode : OperationMode) : Nat :=
  setBits v 24 3 (opModeBits mode)

/-- Source `PayloadSize::try_from` on the 3-bit `_plsize` field composed with
`PayloadSize::num_bytes` (src/memory/controller/fifo.rs lines 176-202).
Note `Bytes64` maps to 65 in the source. The 3-bit field always decodes,
so the `Bytes8` fallback of `payload_size()` is unreachable. -/
def payload_size_num_bytes : Nat → Nat
  | 0 => 8
  | 1 => 12
  | 2 => 16
  | 3 => 20
  | 4 => 24
  | 5 => 32
  | 6 => 48
  | 7 => 65
  | _ => 8

/-- Source `_plsize` field of the TXQ/FIFO control registers (bits 31..29). -/
def plsizeBits (v : Nat) : Nat := getBits v 29 3

/-- Source `TxQueueStatusRegister::txqnif` (bit 0, queue-not-full flag). -/
def txqnif (v : Nat) : Bool := v.testBit 0

/-- Source `FifoControlRegister::txen` (bit 7). -/
def fifoTxen (v : Nat) : Bool := v.testBit 7

/-- Source `FifoControlRegister::rxtsen` (bit 5). -/
def rxtsen (v : Nat) : Bool := v.testBit 5

/-- Source `FifoStatusRegister::tfnrfnif` (bit 0). -/
def tfnrfnif (v : Nat) : Bool := v.testBit 0

/-- Source `TxEventFifoStatusRegister::tefneif` (bit 0). -/
def tefneif (v : Nat) : Bool := v.testBit 0

/-- Source `TxEventFifoControlRegister::teftsen` (bit 5). -/
def teftsen (v : Nat) : Bool := v.testBit 5

/-- Source `set_uinc` (software_settable `_uinc`, bit 8 of the TEF/TXQ/FIFO
control registers). -/
def set_uinc (v : Nat) : Nat := setBit v 8 true

/-- Source `UserAddressRegister::calculate_ram_address`: `fifoua + RAM_BASE_ADDRESS`
as u32 addition. -/
def calculate_ram_address (v : Nat) : Nat := (v + RAM_BASE_ADDRESS) % U32_MOD

/-! ### Event traces and outcomes -/

/-- One SPI transaction issued by the driver. -/
inductive SpiEvent
  | readReg (addr : Nat)
  | writeReg (addr : Nat) (value : Nat)
  | readRam (addr : Nat) (len : Nat)
  | writeRam (addr : Nat) (len : Nat)
deriving DecidableEq

/-- Whether an event mutates hardware state (a register or RAM write). -/
def SpiEvent.isWrite : SpiEvent → Bool
  | .writeReg _ _ => true
  | .writeRam _ _ => true
  | _ => false

/-- Whether an event is a RAM write transaction. -/
def SpiEvent.isRamWrite : SpiEvent → Bool
  | .writeRam _ _ => true
  | _ => false

/-- Result of a driver operation run against a static chip with a
working transport: the Rust return value, or a Rust panic. -/
inductive Outcome (α : Type)
  | ok (value : α)
  | err (e : Error)
  | panicked
deriving DecidableEq

/-! ### Transmit messages (src/message/tx.rs) -/

/-- Source `embedded_can::Id`: a standard (11-bit) or extended (29-bit) CAN id. -/
inductive MsgId
  | standard (sid : Nat)
  | extended (eid : Nat)
deriving DecidableEq

/-- A `TxMessage`: the two header words (`TxHeader([u32; 2])`) and the
payload length. The 64-byte payload buffer content never influences
control flow, so only its length is tracked. -/
structure TxMessage where
  header0 : Nat
  header1 : Nat
  dataLen : Nat
deriving DecidableEq

/-- Source `TxHeader::dlc` (bits 35..32, i.e. bits 3..0 of the second word). -/
def TxMessage.dlc (m : TxMessage) : Nat := getBits m.header1 0 4

/-- Source `TxHeader::fdf` (bit 39, i.e. bit 7 of the second word). -/
def TxMessage.fdf (m : TxMessage) : Bool := m.header1.testBit 7

/-- Source `TxMessage::data().len()`. -/
def TxMessage.dataLength (m : TxMessage) : Nat := m.dataLen

/-- The fixed buffer returned by `TxMessage::as_bytes`:
`HEADER_SIZE_DWORDS * 4 + MAX_FD_BUFFER_SIZE` bytes. -/
def TX_BYTES_BUFFER_SIZE : Nat := HEADER_SIZE_DWORDS * 4 + MAX_FD_BUFFER_SIZE

/-- The `length` component returned by `TxMessage::as_bytes`
(src/message/tx.rs lines 162-174): `len_for_dlc(dlc, fdf).unwrap() + 8`.
A 4-bit DLC always decodes, so the unwrap cannot fail and `getD` is
exact. -/
def tx_as_bytes_len (m : TxMessage) : Nat :=
  (len_for_dlc m.dlc m.fdf).getD 0 + 8

/-- The slice length `length + (4 - length % 4)` taken from the
`as_bytes` buffer by `tx_queue_push_message` and `tx_fifo_push_message`
(src/spi.rs lines 612 and 708). -/
def tx_padded_len (length : Nat) : Nat := length + (4 - length % 4)

/-- Source `TxMessage::new_with_data` (src/message/tx.rs lines 70-97), reduced to
the tracked fields: fails when `dlc_for_len` has no entry; otherwise sets
DLC, FDF and the id bits of the header. -/
def tx_message_new_with_data (identifier : MsgId) (dataLen : Nat) (is_fd : Bool) :
    Option TxMessage :=
  match dlc_for_len dataLen is_fd with
  | none => none
  | some d =>
    let h1 := setBit (setBits 0 0 4 d) 7 is_fd
    match identifier with
    | .standard sid =>
      some { header0 := setBits 0 0 11 sid, header1 := h1, dataLen := dataLen }
    | .extended eid =>
      some { header0 := setBits (setBits 0 0 11 (eid >>> 18)) 11 18 (eid % 2 ^ 18),
             header1 := setBit h1 4 true, dataLen := dataLen }

/-! ### Receive messages (src/message/rx.rs) -/

/-- An `RxMessage`: header words, optional timestamp and the payload
bytes that were read from RAM. -/
structure RxMessage where
  header0 : Nat
  header1 : Nat
  timestamp : Option Nat
  data : List Nat
deriving DecidableEq

/-- Source `RxMessage::new`: fails only when the supplied data slice exceeds
`MAX_FD_BUFFER_SIZE`. -/
def rx_message_new (h0 h1 : Nat) (timestamp : Option Nat) (data : List Nat) :
    Option RxMessage :=
  if data.length > MAX_FD_BUFFER_SIZE then none
  else some { header0 := h0, header1 := h1, timestamp := timestamp, data := data }

/-- A `TxEventObject`: header words and optional timestamp. -/
structure TxEventObject where
  header0 : Nat
  header1 : Nat
  timestamp : Option Nat
deriving DecidableEq

/-! ### Queue protocol (src/spi.rs), with a working transport -/

/-- Source `tx_queue_push_message` (src/spi.rs lines 573-623). Returns the Rust
result together with the trace of SPI transactions issued. The slice
`&bytes[..length + (4 - length % 4)]` panics when the padded length
exceeds the 72-byte `as_bytes` buffer. -/
def tx_queue_push_message (chip : Chip) (m : TxMessage) :
    Outcome Unit × List SpiEvent :=
  let c1con := read_sfr_value chip C1CON_ADDR
  let tr0 := [SpiEvent.readReg C1CON_ADDR]
  if txqen c1con = false then (.err .TxQueueDisabled, tr0)
  else
    let control := read_sfr_value chip C1TXQCON_ADDR
    let tr1 := tr0 ++ [SpiEvent.readReg C1TXQCON_ADDR]
    if payload_size_num_bytes (plsizeBits control) < m.dataLength then
      (.err .FifoTooSmall, tr1)
    else
      let status := read_sfr_value chip C1TXQSTA_ADDR
      let tr2 := tr1 ++ [SpiEvent.readReg C1TXQSTA_ADDR]
      if txqnif status = false then (.err .FifoFull, tr2)
      else
        let ua := read_sfr_value chip C1TXQUA_ADDR
        let ramAddress := calculate_ram_address ua
        let tr3 := tr2 ++ [SpiEvent.readReg C1TXQUA_ADDR]
        let length := tx_as_bytes_len m
        let padded := tx_padded_len length
        if TX_BYTES_BUFFER_SIZE < padded then (.panicked, tr3)
        else
          let a16 := ramAddress % U16_MOD
          match ram_write_check a16 padded with
          | some e => (.err e, tr3)
          | none =>
            let tr4 := tr3 ++ [SpiEvent.writeRam a16 padded]
            (.ok (), tr4 ++ [SpiEvent.writeReg C1TXQCON_ADDR (set_uinc control)])

/-- Source `tx_fifo_push_message` (src/spi.rs lines 661-720). -/
def tx_fifo_push_message (chip : Chip) (n : Nat) (m : TxMessage) :
    Outcome Unit × List SpiEvent :=
  let control := read_sfr_value chip (fifoConAddress n)
  let tr0 := [SpiEvent.readReg (fifoConAddress n)]
  if fifoTxen control = false then (.err .FifoNotTx, tr0)
  else
    if payload_size_num_bytes (plsizeBits control) < m.dataLength then
      (.err .FifoTooSmall, tr0)
    else
      let status := read_sfr_value chip (fifoStaAddress n)
      let tr1 := tr0 ++ [SpiEvent.readReg (fifoStaAddress n)]
      if tfnrfnif status = false then (.err .FifoFull, tr1)
      else
        let ua := read_sfr_value chip (fifoUaAddress n)
        let ramAddress := calculate_ram_address ua
        let tr2 := tr1 ++ [SpiEvent.readReg (fifoUaAddress n)]
        let length := tx_as_bytes_len m
        let padded := tx_padded_len length
        if TX_BYTES_BUFFER_SIZE < padded then (.panicked, tr2)
        else
          let a16 := ramAddress % U16_MOD
          match ram_write_check a16 padded with
          | some e => (.err e, tr2)
          | none =>
            let tr3 := tr2 ++ [SpiEvent.writeRam a16 padded]
            (.ok (), tr3 ++ [SpiEvent.writeReg (fifoConAddress n) (set_uinc control)])

/-- The padded RAM read length used by `rx_fifo_peek_next`
(src/spi.rs line 934): `data_len + (4 - data_len % 4)`. -/
def rx_read_len (dataLen : Nat) : Nat := dataLen + (4 - dataLen % 4)

/-- Payload phase of `rx_fifo_peek_next` (src/spi.rs lines 921-946),
shared by the timestamped and plain paths: compute the payload length
from the header DLC, read the padded payload from RAM, and assemble the
`RxMessage`. The slice `&mut data[..read_len]` panics when `read_len`
exceeds the 64-byte buffer, as does the final `unwrap`. -/
def rx_read_payload (chip : Chip) (ramAddress h0 h1 : Nat) (timestamp : Option Nat)
    (tr : List SpiEvent) : Outcome (Option RxMessage) × List SpiEvent :=
  match len_for_dlc (getBits h1 0 4) (h1.testBit 7) with
  | none => (.panicked, tr)
  | some dataLen =>
    let dataOffset : Nat := if timestamp.isSome then 3 else 2
    let readLen := rx_read_len dataLen
    if MAX_FD_BUFFER_SIZE < readLen then (.panicked, tr)
    else
      let aD := (ramAddress + 4 * dataOffset) % U16_MOD
      match ram_read_check aD readLen with
      | some e => (.err e, tr)
      | none =>
        let tr2 := tr ++ [SpiEvent.readRam aD readLen]
        let data := (List.range dataLen).map (fun i => ram_byte chip (aD + i))
        match rx_message_new h0 h1 timestamp data with
        | some msg => (.ok (some msg), tr2)
        | none => (.panicked, tr2)

/-- Source `rx_fifo_has_next` (src/spi.rs lines 841-859). -/
def rx_fifo_has_next (chip : Chip) (n : Nat) : Outcome Bool × List SpiEvent :=
  let control := read_sfr_value chip (fifoConAddress n)
  let tr0 := [SpiEvent.readReg (fifoConAddress n)]
  if fifoTxen control = true then (.err .FifoNotRx, tr0)
  else
    let status := read_sfr_value chip (fifoStaAddress n)
    (.ok (tfnrfnif status), tr0 ++ [SpiEvent.readReg (fifoStaAddress n)])

/-- Source `rx_fifo_peek_next` (src/spi.rs lines 866-947): check the FIFO has
data, read the user address, read the 8-byte header, re-read the control
register for `rxtsen`, optionally read the timestamp word, then read the
payload. No register write is ever issued. -/
def rx_fifo_peek_next (chip : Chip) (n : Nat) :
    Outcome (Option RxMessage) × List SpiEvent :=
  match rx_fifo_has_next chip n with
  | (.err e, tr) => (.err e, tr)
  | (.panicked, tr) => (.panicked, tr)
  | (.ok hasNext, tr) =>
    if hasNext = false then (.ok none, tr)
    else
      let ua := read_sfr_value chip (fifoUaAddress n)
      let ramAddress := calculate_ram_address ua
      let tr1 := tr ++ [SpiEvent.readReg (fifoUaAddress n)]
      let a16 := ramAddress % U16_MOD
      match ram_read_check a16 8 with
      | some e => (.err e, tr1)
      | none =>
        let tr2 := tr1 ++ [SpiEvent.readRam a16 8]
        let h0 := ram_word chip a16
        let h1 := ram_word chip (a16 + 4)
        let control := read_sfr_value chip (fifoConAddress n)
        let tr3 := tr2 ++ [SpiEvent.readReg (fifoConAddress n)]
        if rxtsen control = true then
          let aT := (ramAddress + 4 * 2) % U16_MOD
          match ram_read_check aT 4 with
          | some e => (.err e, tr3)
          | none =>
            let tr4 := tr3 ++ [SpiEvent.readRam aT 4]
            rx_read_payload chip ramAddress h0 h1 (some (ram_word chip aT)) tr4
        else
          rx_read_payload chip ramAddress h0 h1 none tr3

/-- Source `rx_fifo_get_next` (src/spi.rs lines 956-973): peek, then on a
successful read set the FIFO control register's `uinc` bit through one
read-modify-write. -/
def rx_fifo_get_next (chip : Chip) (n : Nat) :
    Outcome (Option RxMessage) × List SpiEvent :=
  match rx_fifo_peek_next chip n with
  | (.err e, tr) => (.err e, tr)
  | (.panicked, tr) => (.panicked, tr)
  | (.ok none, tr) => (.ok none, tr)
  | (.ok (some msg), tr) =>
    let control := read_sfr_value chip (fifoConAddress n)
    (.ok (some msg),
      tr ++ [SpiEvent.readReg (fifoConAddress n),
             SpiEvent.writeReg (fifoConAddress n) (set_uinc control)])

/-- Source `tx_event_fifo_has_next` (src/spi.rs lines 760-764). -/
def tx_event_fifo_has_next (chip : Chip) : Outcome Bool × List SpiEvent :=
  let status := read_sfr_value chip C1TEFSTA_ADDR
  (.ok (tefneif status), [SpiEvent.readReg C1TEFSTA_ADDR])

/-- Source `tx_event_fifo_peek_next` (src/spi.rs lines 771-816): check the TEF
has data, read the user address, read the TEF control register for
`teftsen`, then read a 12-byte (timestamped) or 8-byte record. No
register write is ever issued. -/
def tx_event_fifo_peek_next (chip : Chip) :
    Outcome (Option TxEventObject) × List SpiEvent :=
  match tx_event_fifo_has_next chip with
  | (.err e, tr) => (.err e, tr)
  | (.panicked, tr) => (.panicked, tr)
  | (.ok hasNext, tr) =>
    if hasNext = false then (.ok none, tr)
    else
      let ua := read_sfr_value chip C1TEFUA_ADDR
      let ramAddress := calculate_ram_address ua
      let tr1 := tr ++ [SpiEvent.readReg C1TEFUA_ADDR]
      let control := read_sfr_value chip C1TEFCON_ADDR
      let tr2 := tr1 ++ [SpiEvent.readReg C1TEFCON_ADDR]
      let a16 := ramAddress % U16_MOD
      if teftsen control = true then
        match ram_read_check a16 12 with
        | some e => (.err e, tr2)
        | none =>
          (.ok (some { header0 := ram_word chip a16, header1 := ram_word chip (a16 + 4),
                       timestamp := some (ram_word chip (a16 + 8)) }),
           tr2 ++ [SpiEvent.readRam a16 12])
      else
        match ram_read_check a16 8 with
        | some e => (.err e, tr2)
        | none =>
          (.ok (some { header0 := ram_word chip a16, header1 := ram_word chip (a16 + 4),
                       timestamp := none }),
           tr2 ++ [SpiEvent.readRam a16 8])

/-- Source `tx_event_fifo_get_next` (src/spi.rs lines 824-838): peek, then on a
successful read set `C1TEFCON.uinc` through one read-modify-write. -/
def tx_event_fifo_get_next (chip : Chip) :
    Outcome (Option TxEventObject) × List SpiEvent :=
  match tx_event_fifo_peek_next chip with
  | (.err e, tr) => (.err e, tr)
  | (.panicked, tr) => (.panicked, tr)
  | (.ok none, tr) => (.ok none, tr)
  | (.ok (some obj), tr) =>
    let control := read_sfr_value chip C1TEFCON_ADDR
    (.ok (some obj),
      tr ++ [SpiEvent.readReg C1TEFCON_ADDR,
             SpiEvent.writeReg C1TEFCON_ADDR (set_uinc control)])

/-! ### Acceptance filters (src/spi.rs `configure_filter`,
src/memory/controller/filter.rs, src/settings.rs) -/

/-- Source `FilterMatchMode` from src/settings.rs. -/
inductive FilterMatchMode
  | StandardOnly
  | ExtendedOnly
  | Both
deriving DecidableEq

/-- Source `FilterConfiguration` from src/settings.rs; the buffer pointer is a
`FifoNumber` (1..=31). -/
structure FilterConfiguration where
  buffer_pointer : Nat
  mode : FilterMatchMode
  filter_bits : MsgId
  mask_bits : MsgId

/-- Source `FilterControlRegister::is_enabled`: the `fltenX` bit of the selected
quarter (bits 7, 15, 23, 31). -/
def filter_control_is_enabled (v index : Nat) : Bool :=
  match index with
  | 0 => v.testBit 7
  | 1 => v.testBit 15
  | 2 => v.testBit 23
  | _ => v.testBit 31

/-- Source `FilterControlRegister::set_enabled`. -/
def filter_control_set_enabled (v index : Nat) (enabled : Bool) : Nat :=
  match index with
  | 0 => setBit v 7 enabled
  | 1 => setBit v 15 enabled
  | 2 => setBit v 23 enabled
  | _ => setBit v 31 enabled

/-- Source `FilterControlRegister::get_buffer_pointer` raw bits: the 5-bit
`fXbp` field of the selected quarter (bits 4..0, 12..8, 20..16, 28..24). -/
def filter_control_get_bp (v index : Nat) : Nat :=
  match index with
  | 0 => getBits v 0 5
  | 1 => getBits v 8 5
  | 2 => getBits v 16 5
  | _ => getBits v 24 5

/-- Source `FilterControlRegister::set_buffer_pointer`. -/
def filter_control_set_bp (v index bp : Nat) : Nat :=
  match index with
  | 0 => setBits v 0 5 bp
  | 1 => setBits v 8 5 bp
  | 2 => setBits v 16 5 bp
  | _ => setBits v 24 5 bp

/-- The EID mask used by `configure_filter`:
`(!StandardId::MAX.as_raw() as u32) >> 11` where `MAX.as_raw() = 0x7FF : u16`,
so `(0xF800 : u32) >> 11 = 0x1F`. -/
def EID_FILTER_MASK : Nat := (0xFFFF - 0x7FF) >>> 11

/-- The transform applied to the filter object register
(src/spi.rs lines 503-526): sid/eid from the filter bits, `exide` from
the match mode. -/
def filter_object_transform (v : Nat) (cfg : FilterConfiguration) : Nat :=
  let v1 := match cfg.filter_bits with
    | .standard sid => setBits (setBits v 0 11 sid) 11 18 0
    | .extended eid => setBits (setBits v 0 11 (eid >>> 18)) 11 18 (eid &&& EID_FILTER_MASK)
  setBit v1 30 (match cfg.mode with
    | .StandardOnly | .Both => false
    | .ExtendedOnly => true)

/-- The transform applied to the mask register
(src/spi.rs lines 529-549): msid/meid from the mask bits, `mide` from
the match mode. -/
def mask_register_transform (v : Nat) (cfg : FilterConfiguration) : Nat :=
  let v1 := match cfg.mask_bits with
    | .standard sid => setBits (setBits v 0 11 sid) 11 18 0
    | .extended eid => setBits (setBits v 0 11 (eid >>> 18)) 11 18 (eid &&& EID_FILTER_MASK)
  setBit v1 30 (match cfg.mode with
    | .Both => false
    | .StandardOnly | .ExtendedOnly => true)

/-- Source `configure_filter` (src/spi.rs lines 480-563). The filter number
splits into the control register number (`n / 4`) and the quarter index
(`n % 4`) per `FilterNumber::get_control_register`. The filter is always
disabled first; with no configuration the function stops there; otherwise
the object and mask registers are rewritten and the final control write
sets the buffer pointer and re-enables the filter. Every step is a
read-modify-write. -/
def configure_filter (chip : Chip) (filterNumber : Nat)
    (config : Option FilterConfiguration) : Outcome Unit × List SpiEvent :=
  let controlNumber := filterNumber / 4
  let filterIndex := filterNumber % 4
  let ca := filterControlAddress controlNumber
  let v := read_sfr_value chip ca
  let tr0 := [SpiEvent.readReg ca,
              SpiEvent.writeReg ca (filter_control_set_enabled v filterIndex false)]
  match config with
  | none => (.ok (), tr0)
  | some cfg =>
    let oa := filterObjectAddress filterNumber
    let ov := read_sfr_value chip oa
    let tr1 := tr0 ++ [SpiEvent.readReg oa,
                       SpiEvent.writeReg oa (filter_object_transform ov cfg)]
    let ma := maskAddress filterNumber
    let mv := read_sfr_value chip ma
    let tr2 := tr1 ++ [SpiEvent.readReg ma,
                       SpiEvent.writeReg ma (mask_register_transform mv cfg)]
    let v2 := read_sfr_value chip ca
    let final := filter_control_set_enabled
      (filter_control_set_bp v2 filterIndex cfg.buffer_pointer) filterIndex true
    (.ok (), tr2 ++ [SpiEvent.readReg ca, SpiEvent.writeReg ca final])

/-! ### Operating-mode change (src/spi.rs `set_op_mode`) -/

/-- Source `MAX_ATTEMPTS` of the mode-change polling loop. -/
def MAX_OP_MODE_ATTEMPTS : Nat := 5

/-- The polling loop of `set_op_mode` (src/spi.rs lines 226-238), by
remaining attempts: read `C1CON`; stop successfully when the chip reports
the requested mode; on the last failed attempt return
`ChangeOpModeTimeout`. -/
def op_mode_poll (chip : Chip) (mode : OperationMode) :
    Nat → Except ConfigError Unit × List SpiEvent
  | 0 => (.ok (), [])
  | k + 1 =>
    let v := read_sfr_value chip C1CON_ADDR
    if opmode v = mode then (.ok (), [SpiEvent.readReg C1CON_ADDR])
    else if k = 0 then (.error .ChangeOpModeTimeout, [SpiEvent.readReg C1CON_ADDR])
    else
      let r := op_mode_poll chip mode k
      (r.1, SpiEvent.readReg C1CON_ADDR :: r.2)

/-- Source `set_op_mode` (src/spi.rs lines 213-241): request the mode through a
read-modify-write of `C1CON.reqop`, then poll up to 5 times. -/
def set_op_mode (chip : Chip) (mode : OperationMode) :
    Except ConfigError Unit × List SpiEvent :=
  let v := read_sfr_value chip C1CON_ADDR
  let r := op_mode_poll chip mode MAX_OP_MODE_ATTEMPTS
  (r.1,
    [SpiEvent.readReg C1CON_ADDR, SpiEvent.writeReg C1CON_ADDR (set_opmode v mode)]
      ++ r.2)

/-! ### Concrete chip states and messages for the witnesses -/

/-- A chip whose registers and RAM read as zero. -/
def chipZero : Chip := { sfr := fun _ => 0, ram := fun _ => 0 }

/-- A chip with the TXQ enabled (`C1CON.TXQEN`), payload size 64
(`C1TXQCON.plsize = 7`), the TXQ not full (`C1TXQSTA.txqnif`) and the TXQ
user address at the RAM base. -/
def chipTxqReady : Chip :=
  { sfr := fun a =>
      if a = C1CON_ADDR then 2 ^ 20
      else if a = C1TXQCON_ADDR then 7 * 2 ^ 29
      else if a = C1TXQSTA_ADDR then 1
      else 0,
    ram := fun _ => 0 }

/-- A chip with FIFO 1 configured for transmit with payload size 64 and
not full. -/
def chipFifoTxReady : Chip :=
  { sfr := fun a =>
      if a = fifoConAddress 1 then 2 ^ 7 + 7 * 2 ^ 29
      else if a = fifoStaAddress 1 then 1
      else 0,
    ram := fun _ => 0 }

/-- A chip with FIFO 1 configured for receive (TXEN and RXTSEN clear),
holding one frame whose header is all zero (DLC 0, classic CAN). -/
def chipRxReady : Chip :=
  { sfr := fun a => if a = fifoStaAddress 1 then 1 else 0, ram := fun _ => 0 }

/-- Like `chipRxReady` but the frame header has `FDF = 1` and `DLC = 15`
(byte 4 of the receive object is `0x8F`): a received 64-byte CAN-FD
frame. -/
def chipRxFd64 : Chip :=
  { sfr := fun a => if a = fifoStaAddress 1 then 1 else 0,
    ram := fun a => if a = 0x404 then 0x8F else 0 }

/-- A chip whose TEF is not empty (`C1TEFSTA.tefneif`) with timestamps
disabled and an all-zero event record. -/
def chipTefReady : Chip :=
  { sfr := fun a => if a = C1TEFSTA_ADDR then 1 else 0, ram := fun _ => 0 }

/-- The standard-id CAN-FD message with 64 data bytes
(`TxMessage::new_fd(StandardId(0x123), [0; 64])`): DLC 15, FDF set. -/
def msg64 : TxMessage := { header0 := 0x123, header1 := 0x8F, dataLen := 64 }

/-- The standard-id classic CAN message with 4 data bytes: DLC 4. -/
def msg4 : TxMessage := { header0 := 0x123, header1 := 4, dataLen := 4 }

/-- The standard-id classic CAN message with 5 data bytes: DLC 5. -/
def msg5 : TxMessage := { header0 := 0x123, header1 := 5, dataLen := 5 }

/-- The frame `rx_fifo_peek_next` decodes from `chipRxReady`. -/
def rxMsgZero : RxMessage :=
  { header0 := 0, header1 := 0, timestamp := none, data := [] }

/-- The event record `tx_event_fifo_peek_next` decodes from
`chipTefReady`. -/
def tefObjZero : TxEventObject :=
  { header0 := 0, header1 := 0, timestamp := none }

/-- A chip with FIFO 1 configured for transmit but with payload size 8
(`plsize = 0`): too small for a 64-byte message. -/
def chipFifoTxSmall : Chip :=
  { sfr := fun a => if a = fifoConAddress 1 then 2 ^ 7 else 0, ram := fun _ => 0 }

/-- A chip with FIFO 1 configured for transmit with payload size 64 but
full (`tfnrfnif` clear). -/
def chipFifoTxFull : Chip :=
  { sfr := fun a => if a = fifoConAddress 1 then 2 ^ 7 + 7 * 2 ^ 29 else 0,
    ram := fun _ => 0 }

/-- A sample filter configuration: route matches of standard id 3
(mask 7, both frame kinds) to FIFO 2. -/
def filterCfgSample : FilterConfiguration :=
  { buffer_pointer := 2, mode := .Both,
    filter_bits := .standard 3, mask_bits := .standard 7 }

end MCP2518

open MCP2518

/-- Claim C3: DLC/length round trip. For every length below 9 in both modes
the two tables are mutually inverse identities; for every FD length in
{12,16,20,24,32,48,64} the round trip through `dlc_for_len` and
`len_for_dlc` is exact; for every non-FD length in 9..=63 `dlc_for_len`
returns none; for every non-FD DLC in 9..=15 `len_for_dlc` returns 8. -/
theorem claim_C3_dlc_roundtrip :
    (∀ l < 9, ∀ fd : Bool, dlc_for_len l fd = some l ∧ len_for_dlc l fd = some l) ∧
    (∀ l ∈ FD_LONG_LENGTHS, ∃ d, dlc_for_len l true = some d ∧ len_for_dlc d true = some l) ∧
    (∀ l < 64, 9 ≤ l → dlc_for_len l false = none) ∧
    (∀ d < 16, 9 ≤ d → len_for_dlc d false = some 8) := by
  refine ⟨by decide, by decide, ?_, by decide⟩
  intro l _ h9
  have h8 : l > 8 := h9
  simp [dlc_for_len, h8]

/-- Witness for C3 at concrete inputs: length 5 round-trips in both modes,
FD length 48 round-trips through DLC 14, non-FD length 20 has no DLC, and
non-FD DLC 12 denotes 8 bytes. -/
theorem claim_C3_dlc_roundtrip_witness :
    (dlc_for_len 5 true = some 5 ∧ len_for_dlc 5 true = some 5) ∧
    (∃ d, dlc_for_len 48 true = some d ∧ len_for_dlc d true = some 48) ∧
    dlc_for_len 20 false = none ∧
    len_for_dlc 12 false = some 8 :=
  ⟨claim_C3_dlc_roundtrip.1 5 (by decide) true,
   claim_C3_dlc_roundtrip.2.1 48 (by decide),
   claim_C3_dlc_roundtrip.2.2.1 20 (by decide) (by decide),
   claim_C3_dlc_roundtrip.2.2.2 12 (by decide) (by decide)⟩

/-- Claim C2 counterexample: the claim asserts `is_valid_ram_address(end - 3, 4)`
is true, but the code's inclusive end bound rejects it:
`0xBFC + 4 = 0xC00 > 0xBFF`. -/
theorem claim_C2_counterexample :
    is_valid_ram_address (RAM_END_ADDRESS - 3) 4 = false := by decide

/-! ### Helper lemmas shared by the claims -/

/-- Appending write-free traces yields a write-free trace. -/
theorem no_writes_append {tr1 tr2 : List MCP2518.SpiEvent}
    (h1 : ∀ e ∈ tr1, e.isWrite = false) (h2 : ∀ e ∈ tr2, e.isWrite = false) :
    ∀ e ∈ tr1 ++ tr2, e.isWrite = false := by
  intro e he
  rcases List.mem_append.mp he with h | h
  exacts [h1 e h, h2 e h]

/-- A singleton register read is write-free. -/
theorem no_writes_readReg (a : Nat) :
    ∀ e ∈ [MCP2518.SpiEvent.readReg a], e.isWrite = false := by
  intro e he
  simp only [List.mem_singleton] at he
  subst he
  rfl

/-- A singleton RAM read is write-free. -/
theorem no_writes_readRam (a l : Nat) :
    ∀ e ∈ [MCP2518.SpiEvent.readRam a l], e.isWrite = false := by
  intro e he
  simp only [List.mem_singleton] at he
  subst he
  rfl

/-- The payload phase of the receive peek appends only RAM reads. -/
theorem rx_read_payload_no_writes (chip : Chip) (ra h0 h1 : Nat) (ts : Option Nat)
    (tr : List SpiEvent) (h : ∀ e ∈ tr, e.isWrite = false) :
    ∀ e ∈ (rx_read_payload chip ra h0 h1 ts tr).2, e.isWrite = false := by
  intro e he
  simp only [rx_read_payload] at he
  split at he
  · exact h e he
  · split at he
    · exact h e he
    · split at he
      · exact h e he
      · split at he <;> exact no_writes_append h (no_writes_readRam _ _) e he

/-- Checking a receive FIFO's status issues only register reads. -/
theorem rx_fifo_has_next_no_writes (chip : Chip) (n : Nat) :
    ∀ e ∈ (rx_fifo_has_next chip n).2, e.isWrite = false := by
  intro e he
  simp only [rx_fifo_has_next] at he
  split at he
  · simp only [List.mem_singleton] at he
    subst he
    rfl
  · simp only [List.cons_append, List.nil_append, List.mem_cons,
      List.mem_singleton, List.not_mem_nil, or_false] at he
    rcases he with he | he <;> (subst he; rfl)

/-- The receive peek never issues a register or RAM write. -/
theorem rx_fifo_peek_no_writes (chip : Chip) (n : Nat) :
    ∀ e ∈ (rx_fifo_peek_next chip n).2, e.isWrite = false := by
  have hH0 := rx_fifo_has_next_no_writes chip n
  rcases hH : rx_fifo_has_next chip n with ⟨res, tr⟩
  rw [hH] at hH0
  dsimp only at hH0
  intro e he
  cases res with
  | err e2 => simp only [rx_fifo_peek_next, hH] at he; exact hH0 e he
  | panicked => simp only [rx_fifo_peek_next, hH] at he; exact hH0 e he
  | ok hasNext =>
    simp only [rx_fifo_peek_next, hH] at he
    by_cases hasNextFalse : hasNext = false
    · rw [if_pos hasNextFalse] at he
      dsimp only at he
      exact hH0 e he
    · rw [if_neg hasNextFalse] at he
      split at he
      · dsimp only at he
        exact no_writes_append hH0 (no_writes_readReg _) e he
      · split at he
        · split at he
          · dsimp only at he
            exact no_writes_append
              (no_writes_append
                (no_writes_append hH0 (no_writes_readReg _)) (no_writes_readRam _ _))
              (no_writes_readReg _) e he
          · refine rx_read_payload_no_writes chip _ _ _ _ _ ?_ e he
            exact no_writes_append
              (no_writes_append
                (no_writes_append
                  (no_writes_append hH0 (no_writes_readReg _)) (no_writes_readRam _ _))
                (no_writes_readReg _))
              (no_writes_readRam _ _)
        · refine rx_read_payload_no_writes chip _ _ _ _ _ ?_ e he
          exact no_writes_append
            (no_writes_append
              (no_writes_append hH0 (no_writes_readReg _)) (no_writes_readRam _ _))
            (no_writes_readReg _)

/-- The transmit-event peek never issues a register or RAM write. -/
theorem tx_event_fifo_peek_no_writes (chip : Chip) :
    ∀ e ∈ (tx_event_fifo_peek_next chip).2, e.isWrite = false := by
  intro e he
  simp only [tx_event_fifo_peek_next, tx_event_fifo_has_next] at he
  by_cases hb : tefneif (read_sfr_value chip C1TEFSTA_ADDR) = false
  · rw [if_pos hb] at he
    dsimp only at he
    exact no_writes_readReg _ e he
  · rw [if_neg hb] at he
    split at he
    all_goals
      split at he <;> dsimp only at he <;>
        first
          | exact no_writes_append
              (no_writes_append (no_writes_readReg _) (no_writes_readReg _))
              (no_writes_readReg _) e he
          | exact no_writes_append
              (no_writes_append
                (no_writes_append (no_writes_readReg _) (no_writes_readReg _))
                (no_writes_readReg _))
              (no_writes_readRam _ _) e he

/-- Setting the increment-pointer control bit really sets bit 8. -/
theorem set_uinc_testBit (v : Nat) : Nat.testBit (set_uinc v) 8 = true := by
  unfold set_uinc setBit setBits getBits
  rw [Nat.testBit_to_div_mod]
  simp only [Nat.shiftRight_eq_div_pow, U32_MOD]
  norm_num
  omega

/-- Closed form of the enable-bit getter on a valid quarter index. -/
theorem is_enabled_conv (v idx : Nat) (h : idx < 4) :
    filter_control_is_enabled v idx = Nat.testBit v (7 + 8 * idx) := by
  interval_cases idx <;> rfl

/-- Closed form of the enable-bit setter on a valid quarter index. -/
theorem set_enabled_conv (v idx : Nat) (b : Bool) (h : idx < 4) :
    filter_control_set_enabled v idx b = setBit v (7 + 8 * idx) b := by
  interval_cases idx <;> rfl

/-- Closed form of the buffer-pointer getter on a valid quarter index. -/
theorem get_bp_conv (v idx : Nat) (h : idx < 4) :
    filter_control_get_bp v idx = getBits v (8 * idx) 5 := by
  interval_cases idx <;> rfl

/-- Closed form of the buffer-pointer setter on a valid quarter index. -/
theorem set_bp_conv (v idx bp : Nat) (h : idx < 4) :
    filter_control_set_bp v idx bp = setBits v (8 * idx) 5 bp := by
  interval_cases idx <;> rfl

/-- Clearing a filter's enable bit leaves it reading as disabled. -/
theorem enab_false (v idx : Nat) (h : idx < 4) :
    filter_control_is_enabled (filter_control_set_enabled v idx false) idx = false := by
  rw [is_enabled_conv _ _ h, set_enabled_conv _ _ _ h]
  interval_cases idx <;>
    (unfold setBit setBits getBits
     rw [Nat.testBit_to_div_mod]
     simp only [Nat.shiftRight_eq_div_pow, U32_MOD]
     norm_num
     omega)

/-- The final control-register value of `configure_filter` reads as
enabled. -/
theorem enab_true_final (v idx bp : Nat) (h : idx < 4) :
    filter_control_is_enabled
      (filter_control_set_enabled (filter_control_set_bp v idx bp) idx true) idx = true := by
  rw [is_enabled_conv _ _ h, set_enabled_conv _ _ _ h, set_bp_conv _ _ _ h]
  interval_cases idx <;>
    (unfold setBit setBits getBits
     rw [Nat.testBit_to_div_mod]
     simp only [Nat.shiftRight_eq_div_pow, U32_MOD]
     norm_num
     omega)

/-- The final control-register value of `configure_filter` carries the
requested buffer pointer. -/
theorem bp_final (v idx bp : Nat) (h : idx < 4) (hbp : bp < 32) :
    filter_control_get_bp
      (filter_control_set_enabled (filter_control_set_bp v idx bp) idx true) idx = bp := by
  rw [get_bp_conv _ _ h, set_enabled_conv _ _ _ h, set_bp_conv _ _ _ h]
  interval_cases idx <;>
    (unfold setBit setBits getBits
     simp only [Nat.shiftRight_eq_div_pow, U32_MOD]
     norm_num
     omega)

/-! ### The claims -/

/-- Claim C1 (code bug). The push functions slice
`&bytes[..length + (4 - length % 4)]`, which adds 4 even when `length`
is already a multiple of 4. For the 64-byte CAN-FD message the padded
length is 76, beyond the 72-byte `as_bytes` buffer, so both
`tx_queue_push_message` and `tx_fifo_push_message` panic instead of
writing; for a 4-byte payload the single RAM write transfers 16 bytes
although the least multiple of 4 that is at least `8 + 4 = 12` is 12
itself; the claim's 5-byte example (16 bytes) is unaffected. -/
theorem claim_C1_tx_padding_bug :
    tx_message_new_with_data (.standard 0x123) 64 true = some msg64 ∧
    tx_as_bytes_len msg64 = 72 ∧
    TX_BYTES_BUFFER_SIZE = 72 ∧
    tx_padded_len 72 = 76 ∧
    tx_queue_push_message chipTxqReady msg64 =
      (.panicked,
       [SpiEvent.readReg C1CON_ADDR, SpiEvent.readReg C1TXQCON_ADDR,
        SpiEvent.readReg C1TXQSTA_ADDR, SpiEvent.readReg C1TXQUA_ADDR]) ∧
    tx_fifo_push_message chipFifoTxReady 1 msg64 =
      (.panicked,
       [SpiEvent.readReg (fifoConAddress 1), SpiEvent.readReg (fifoStaAddress 1),
        SpiEvent.readReg (fifoUaAddress 1)]) ∧
    tx_message_new_with_data (.standard 0x123) 4 false = some msg4 ∧
    (8 + 4) % 4 = 0 ∧
    tx_padded_len (tx_as_bytes_len msg4) = 16 ∧
    tx_queue_push_message chipTxqReady msg4 =
      (.ok (),
       [SpiEvent.readReg C1CON_ADDR, SpiEvent.readReg C1TXQCON_ADDR,
        SpiEvent.readReg C1TXQSTA_ADDR, SpiEvent.readReg C1TXQUA_ADDR,
        SpiEvent.writeRam 0x400 16, SpiEvent.writeReg C1TXQCON_ADDR 0xE0000100]) ∧
    tx_padded_len (tx_as_bytes_len msg5) = 16 := by
  refine ⟨by decide, by decide, by decide, by decide, by decide, by decide,
    by decide, by decide, by decide, by decide, by decide⟩

/-- Claim C2 (amended): `is_valid_ram_address(address, length)` is true
iff `0x400 ≤ address` and `address + length ≤ 0xBFF` (for sums that fit
in u32); `(base, 4)` and `(base, 3)` are accepted, `(end + 1, 4)` is
rejected, and — contrary to the original claim — `(end - 3, 4)` is also
rejected, because the end bound is inclusive and the last accepted
4-byte window starts at `end - 4`. The multiple-of-4 gate lives
separately in `read_ram`/`write_ram`, which reject `(base, 3)`. -/
theorem claim_C2_amended :
    (∀ address data_size : Nat, address + data_size < U32_MOD →
      (is_valid_ram_address address data_size = true ↔
        (RAM_BASE_ADDRESS ≤ address ∧ address + data_size ≤ RAM_END_ADDRESS))) ∧
    is_valid_ram_address RAM_BASE_ADDRESS 4 = true ∧
    is_valid_ram_address (RAM_END_ADDRESS - 3) 4 = false ∧
    is_valid_ram_address (RAM_END_ADDRESS - 4) 4 = true ∧
    is_valid_ram_address (RAM_END_ADDRESS + 1) 4 = false ∧
    is_valid_ram_address RAM_BASE_ADDRESS 3 = true ∧
    ram_read_check RAM_BASE_ADDRESS 3 = some (.InvalidReadLength 3) ∧
    ram_write_check RAM_BASE_ADDRESS 3 = some (.InvalidWriteLength 3) := by
  refine ⟨?_, by decide, by decide, by decide, by decide, by decide, rfl, rfl⟩
  intro address data_size h
  have hd : data_size < U32_MOD := by omega
  unfold is_valid_ram_address
  rw [Nat.mod_eq_of_lt hd, Nat.mod_eq_of_lt h]
  simp

/-- Witness for the amended C2 at the boundary inputs: the iff evaluated
at `(0x400, 4)` and at `(0xBFC, 4)` (the latter being `end - 3`). -/
theorem claim_C2_amended_witness :
    (is_valid_ram_address 0x400 4 = true ↔
      (RAM_BASE_ADDRESS ≤ 0x400 ∧ 0x400 + 4 ≤ RAM_END_ADDRESS)) ∧
    (is_valid_ram_address 0xBFC 4 = true ↔
      (RAM_BASE_ADDRESS ≤ 0xBFC ∧ 0xBFC + 4 ≤ RAM_END_ADDRESS)) :=
  ⟨claim_C2_amended.1 0x400 4 (by decide), claim_C2_amended.1 0xBFC 4 (by decide)⟩

/-- Claim C4 (code bug): the receive path pads the payload read length to
`data_len + (4 - data_len % 4)`, so a hardware-reported header with
`FDF = 1` and `DLC = 15` (payload 64) needs a 68-byte read into the
64-byte buffer and `rx_fifo_peek_next` panics, although every 4-bit DLC
does decode through `len_for_dlc` and smaller frames (e.g. DLC 0) are
assembled successfully. -/
theorem claim_C4_rx_len_overflow :
    len_for_dlc 15 true = some 64 ∧
    rx_read_len 64 = 68 ∧
    MAX_FD_BUFFER_SIZE < rx_read_len 64 ∧
    rx_fifo_peek_next chipRxFd64 1 =
      (.panicked,
       [SpiEvent.readReg (fifoConAddress 1), SpiEvent.readReg (fifoStaAddress 1),
        SpiEvent.readReg (fifoUaAddress 1), SpiEvent.readRam 0x400 8,
        SpiEvent.readReg (fifoConAddress 1)]) ∧
    ((List.range 16).all fun dlc =>
      (len_for_dlc dlc true).isSome && (len_for_dlc dlc false).isSome) = true ∧
    rx_fifo_peek_next chipRxReady 1 =
      (.ok (some rxMsgZero),
       [SpiEvent.readReg (fifoConAddress 1), SpiEvent.readReg (fifoStaAddress 1),
        SpiEvent.readReg (fifoUaAddress 1), SpiEvent.readRam 0x400 8,
        SpiEvent.readReg (fifoConAddress 1), SpiEvent.readRam 0x408 4]) := by
  refine ⟨by decide, by decide, by decide, by decide, by decide, by decide⟩

/-- Claim C5: the three error gates of `tx_fifo_push_message` — not a
transmit FIFO, configured payload capacity smaller than the message, and
FIFO full — produce `FifoNotTx`, `FifoTooSmall` and `FifoFull`
respectively, in that precedence order, and any outcome other than
success issues no RAM write transaction. -/
theorem claim_C5_tx_fifo_error_gates :
    ∀ (chip : Chip) (n : Nat) (m : TxMessage),
      (fifoTxen (read_sfr_value chip (fifoConAddress n)) = false →
        tx_fifo_push_message chip n m =
          (.err .FifoNotTx, [SpiEvent.readReg (fifoConAddress n)])) ∧
      (fifoTxen (read_sfr_value chip (fifoConAddress n)) = true →
       payload_size_num_bytes (plsizeBits (read_sfr_value chip (fifoConAddress n))) <
         m.dataLength →
        tx_fifo_push_message chip n m =
          (.err .FifoTooSmall, [SpiEvent.readReg (fifoConAddress n)])) ∧
      (fifoTxen (read_sfr_value chip (fifoConAddress n)) = true →
       ¬ payload_size_num_bytes (plsizeBits (read_sfr_value chip (fifoConAddress n))) <
           m.dataLength →
       tfnrfnif (read_sfr_value chip (fifoStaAddress n)) = false →
        tx_fifo_push_message chip n m =
          (.err .FifoFull,
           [SpiEvent.readReg (fifoConAddress n), SpiEvent.readReg (fifoStaAddress n)])) ∧
      (∀ res tr, tx_fifo_push_message chip n m = (res, tr) → res ≠ .ok () →
        ∀ e ∈ tr, e.isRamWrite = false) := by
  intro chip n m
  refine ⟨?_, ?_, ?_, ?_⟩
  · intro h1
    simp only [tx_fifo_push_message, h1]
    rfl
  · intro h1 h2
    simp only [tx_fifo_push_message, h1, h2]
    simp
  · intro h1 h2 h3
    simp only [tx_fifo_push_message, h1, h3]
    simp [h2]
  · intro res tr h hres e he
    simp only [tx_fifo_push_message] at h
    split at h
    · cases h; simp at he; subst he; rfl
    · split at h
      · cases h; simp at he; subst he; rfl
      · split at h
        · cases h
          simp only [List.cons_append, List.nil_append, List.mem_cons,
            List.mem_singleton, List.not_mem_nil, or_false] at he
          rcases he with he | he <;> (subst he; rfl)
        · split at h
          · cases h
            simp only [List.cons_append, List.nil_append, List.mem_cons,
              List.mem_singleton, List.not_mem_nil, or_false] at he
            rcases he with he | he | he <;> (subst he; rfl)
          · split at h
            · cases h
              simp only [List.cons_append, List.nil_append, List.mem_cons,
                List.mem_singleton, List.not_mem_nil, or_false] at he
              rcases he with he | he | he <;> (subst he; rfl)
            · cases h
              exact absurd rfl hres

/-- Witness for C5: the three error gates observed on concrete chips
(a receive-configured FIFO, an 8-byte-payload FIFO offered a 64-byte
message, and a full FIFO), plus one event of the error trace checked to
be no RAM write. -/
theorem claim_C5_tx_fifo_error_gates_witness :
    tx_fifo_push_message chipRxReady 1 msg4 =
      (.err .FifoNotTx, [SpiEvent.readReg (fifoConAddress 1)]) ∧
    tx_fifo_push_message chipFifoTxSmall 1 msg64 =
      (.err .FifoTooSmall, [SpiEvent.readReg (fifoConAddress 1)]) ∧
    tx_fifo_push_message chipFifoTxFull 1 msg4 =
      (.err .FifoFull,
       [SpiEvent.readReg (fifoConAddress 1), SpiEvent.readReg (fifoStaAddress 1)]) ∧
    (SpiEvent.readReg (fifoConAddress 1)).isRamWrite = false := by
  have h1 := (claim_C5_tx_fifo_error_gates chipRxReady 1 msg4).1 (by decide)
  refine ⟨h1,
    (claim_C5_tx_fifo_error_gates chipFifoTxSmall 1 msg64).2.1 (by decide) (by decide),
    (claim_C5_tx_fifo_error_gates chipFifoTxFull 1 msg4).2.2.1
      (by decide) (by decide) (by decide),
    (claim_C5_tx_fifo_error_gates chipRxReady 1 msg4).2.2.2 _ _ h1 (by decide) _
      (List.mem_singleton.mpr rfl)⟩

/-- Claim C6: `rx_fifo_peek_next` and `tx_event_fifo_peek_next` issue no
register or RAM write at all (in particular they never set the
increment-pointer bit, so repeating a peek against unchanged hardware
reads the same frame); the `get_next` variants return `Ok(None)` with no
write when the queue reports empty, and after a successful read they
append exactly one control-register write, which is the sole write of
the whole trace and has the `uinc` bit (bit 8) set. -/
theorem claim_C6_peek_get_semantics :
    (∀ (chip : Chip) (n : Nat), ∀ e ∈ (rx_fifo_peek_next chip n).2, e.isWrite = false) ∧
    (∀ chip : Chip, ∀ e ∈ (tx_event_fifo_peek_next chip).2, e.isWrite = false) ∧
    (∀ (chip : Chip) (n : Nat) (tr : List SpiEvent),
      rx_fifo_peek_next chip n = (.ok none, tr) →
      rx_fifo_get_next chip n = (.ok none, tr)) ∧
    (∀ (chip : Chip) (tr : List SpiEvent),
      tx_event_fifo_peek_next chip = (.ok none, tr) →
      tx_event_fifo_get_next chip = (.ok none, tr)) ∧
    (∀ (chip : Chip) (n : Nat) (msg : RxMessage) (tr : List SpiEvent),
      rx_fifo_peek_next chip n = (.ok (some msg), tr) →
      rx_fifo_get_next chip n =
        (.ok (some msg),
         tr ++ [SpiEvent.readReg (fifoConAddress n),
                SpiEvent.writeReg (fifoConAddress n)
                  (set_uinc (read_sfr_value chip (fifoConAddress n)))]) ∧
      (tr ++ [SpiEvent.readReg (fifoConAddress n),
              SpiEvent.writeReg (fifoConAddress n)
                (set_uinc (read_sfr_value chip (fifoConAddress n)))]).filter
          SpiEvent.isWrite =
        [SpiEvent.writeReg (fifoConAddress n)
          (set_uinc (read_sfr_value chip (fifoConAddress n)))] ∧
      Nat.testBit (set_uinc (read_sfr_value chip (fifoConAddress n))) 8 = true) ∧
    (∀ (chip : Chip) (obj : TxEventObject) (tr : List SpiEvent),
      tx_event_fifo_peek_next chip = (.ok (some obj), tr) →
      tx_event_fifo_get_next chip =
        (.ok (some obj),
         tr ++ [SpiEvent.readReg C1TEFCON_ADDR,
                SpiEvent.writeReg C1TEFCON_ADDR
                  (set_uinc (read_sfr_value chip C1TEFCON_ADDR))]) ∧
      (tr ++ [SpiEvent.readReg C1TEFCON_ADDR,
              SpiEvent.writeReg C1TEFCON_ADDR
                (set_uinc (read_sfr_value chip C1TEFCON_ADDR))]).filter
          SpiEvent.isWrite =
        [SpiEvent.writeReg C1TEFCON_ADDR
          (set_uinc (read_sfr_value chip C1TEFCON_ADDR))] ∧
      Nat.testBit (set_uinc (read_sfr_value chip C1TEFCON_ADDR)) 8 = true) := by
  refine ⟨rx_fifo_peek_no_writes, tx_event_fifo_peek_no_writes, ?_, ?_, ?_, ?_⟩
  · intro chip n tr h
    simp only [rx_fifo_get_next, h]
  · intro chip tr h
    simp only [tx_event_fifo_get_next, h]
  · intro chip n msg tr h
    have hnw : ∀ e ∈ tr, e.isWrite = false := by
      have := rx_fifo_peek_no_writes chip n
      rw [h] at this
      exact this
    refine ⟨by simp only [rx_fifo_get_next, h], ?_, set_uinc_testBit _⟩
    rw [List.filter_append]
    rw [List.filter_eq_nil.mpr (by intro a ha; rw [hnw a ha]; simp)]
    rfl
  · intro chip obj tr h
    have hnw : ∀ e ∈ tr, e.isWrite = false := by
      have := tx_event_fifo_peek_no_writes chip
      rw [h] at this
      exact this
    refine ⟨by simp only [tx_event_fifo_get_next, h], ?_, set_uinc_testBit _⟩
    rw [List.filter_append]
    rw [List.filter_eq_nil.mpr (by intro a ha; rw [hnw a ha]; simp)]
    rfl

/-- Witness for C6 on concrete chips: empty RX FIFO and empty TEF give
`Ok(None)` with read-only traces; a ready RX FIFO and a ready TEF give
the peeked frame plus exactly one trailing `uinc` write (value 256 since
the control registers read 0); and sample peek events are no writes. -/
theorem claim_C6_peek_get_semantics_witness :
    rx_fifo_get_next chipZero 1 =
      (.ok none,
       [SpiEvent.readReg (fifoConAddress 1), SpiEvent.readReg (fifoStaAddress 1)]) ∧
    tx_event_fifo_get_next chipZero = (.ok none, [SpiEvent.readReg C1TEFSTA_ADDR]) ∧
    (rx_fifo_get_next chipRxReady 1 =
      (.ok (some rxMsgZero),
       [SpiEvent.readReg (fifoConAddress 1), SpiEvent.readReg (fifoStaAddress 1),
        SpiEvent.readReg (fifoUaAddress 1), SpiEvent.readRam 0x400 8,
        SpiEvent.readReg (fifoConAddress 1), SpiEvent.readRam 0x408 4] ++
        [SpiEvent.readReg (fifoConAddress 1), SpiEvent.writeReg (fifoConAddress 1) 256]) ∧
     ([SpiEvent.readReg (fifoConAddress 1), SpiEvent.readReg (fifoStaAddress 1),
       SpiEvent.readReg (fifoUaAddress 1), SpiEvent.readRam 0x400 8,
       SpiEvent.readReg (fifoConAddress 1), SpiEvent.readRam 0x408 4] ++
       [SpiEvent.readReg (fifoConAddress 1),
        SpiEvent.writeReg (fifoConAddress 1) 256]).filter SpiEvent.isWrite =
       [SpiEvent.writeReg (fifoConAddress 1) 256] ∧
     Nat.testBit 256 8 = true) ∧
    (tx_event_fifo_get_next chipTefReady =
      (.ok (some tefObjZero),
       [SpiEvent.readReg C1TEFSTA_ADDR, SpiEvent.readReg C1TEFUA_ADDR,
        SpiEvent.readReg C1TEFCON_ADDR, SpiEvent.readRam 0x400 8] ++
        [SpiEvent.readReg C1TEFCON_ADDR, SpiEvent.writeReg C1TEFCON_ADDR 256]) ∧
     ([SpiEvent.readReg C1TEFSTA_ADDR, SpiEvent.readReg C1TEFUA_ADDR,
       SpiEvent.readReg C1TEFCON_ADDR, SpiEvent.readRam 0x400 8] ++
       [SpiEvent.readReg C1TEFCON_ADDR,
        SpiEvent.writeReg C1TEFCON_ADDR 256]).filter SpiEvent.isWrite =
       [SpiEvent.writeReg C1TEFCON_ADDR 256] ∧
     Nat.testBit 256 8 = true) ∧
    (SpiEvent.readReg (fifoConAddress 1)).isWrite = false ∧
    (SpiEvent.readReg C1TEFSTA_ADDR).isWrite = false :=
  ⟨claim_C6_peek_get_semantics.2.2.1 chipZero 1
     [SpiEvent.readReg (fifoConAddress 1), SpiEvent.readReg (fifoStaAddress 1)]
     (by decide),
   claim_C6_peek_get_semantics.2.2.2.1 chipZero [SpiEvent.readReg C1TEFSTA_ADDR]
     (by decide),
   claim_C6_peek_get_semantics.2.2.2.2.1 chipRxReady 1 rxMsgZero
     [SpiEvent.readReg (fifoConAddress 1), SpiEvent.readReg (fifoStaAddress 1),
      SpiEvent.readReg (fifoUaAddress 1), SpiEvent.readRam 0x400 8,
      SpiEvent.readReg (fifoConAddress 1), SpiEvent.readRam 0x408 4]
     (by decide),
   claim_C6_peek_get_semantics.2.2.2.2.2 chipTefReady tefObjZero
     [SpiEvent.readReg C1TEFSTA_ADDR, SpiEvent.readReg C1TEFUA_ADDR,
      SpiEvent.readReg C1TEFCON_ADDR, SpiEvent.readRam 0x400 8]
     (by decide),
   claim_C6_peek_get_semantics.1 chipRxReady 1 (SpiEvent.readReg (fifoConAddress 1))
     (by decide),
   claim_C6_peek_get_semantics.2.1 chipTefReady (SpiEvent.readReg C1TEFSTA_ADDR)
     (by decide)⟩

/-- Claim C7: in every execution of `configure_filter`, the first
register write clears the target filter's enable bit, and it precedes
(as the trace shows positionally) every write to that filter's object
and mask registers; with a configuration supplied, the final
control-register write carries the requested buffer pointer and the
enable bit set; with `none` supplied, the function stops after the
disable write, leaving the object and mask registers unwritten. -/
theorem claim_C7_filter_disable_order :
    (∀ (chip : Chip) (fn : Nat) (cfg : FilterConfiguration),
      fn < 32 → cfg.buffer_pointer < 32 →
      configure_filter chip fn (some cfg) =
        (.ok (),
         [SpiEvent.readReg (filterControlAddress (fn / 4)),
          SpiEvent.writeReg (filterControlAddress (fn / 4))
            (filter_control_set_enabled
              (read_sfr_value chip (filterControlAddress (fn / 4))) (fn % 4) false),
          SpiEvent.readReg (filterObjectAddress fn),
          SpiEvent.writeReg (filterObjectAddress fn)
            (filter_object_transform (read_sfr_value chip (filterObjectAddress fn)) cfg),
          SpiEvent.readReg (maskAddress fn),
          SpiEvent.writeReg (maskAddress fn)
            (mask_register_transform (read_sfr_value chip (maskAddress fn)) cfg),
          SpiEvent.readReg (filterControlAddress (fn / 4)),
          SpiEvent.writeReg (filterControlAddress (fn / 4))
            (filter_control_set_enabled
              (filter_control_set_bp
                (read_sfr_value chip (filterControlAddress (fn / 4))) (fn % 4)
                cfg.buffer_pointer)
              (fn % 4) true)]) ∧
      filter_control_is_enabled
        (filter_control_set_enabled
          (read_sfr_value chip (filterControlAddress (fn / 4))) (fn % 4) false)
        (fn % 4) = false ∧
      filter_control_is_enabled
        (filter_control_set_enabled
          (filter_control_set_bp
            (read_sfr_value chip (filterControlAddress (fn / 4))) (fn % 4)
            cfg.buffer_pointer)
          (fn % 4) true)
        (fn % 4) = true ∧
      filter_control_get_bp
        (filter_control_set_enabled
          (filter_control_set_bp
            (read_sfr_value chip (filterControlAddress (fn / 4))) (fn % 4)
            cfg.buffer_pointer)
          (fn % 4) true)
        (fn % 4) = cfg.buffer_pointer) ∧
    (∀ (chip : Chip) (fn : Nat), fn < 32 →
      configure_filter chip fn none =
        (.ok (),
         [SpiEvent.readReg (filterControlAddress (fn / 4)),
          SpiEvent.writeReg (filterControlAddress (fn / 4))
            (filter_control_set_enabled
              (read_sfr_value chip (filterControlAddress (fn / 4))) (fn % 4) false)]) ∧
      filter_control_is_enabled
        (filter_control_set_enabled
          (read_sfr_value chip (filterControlAddress (fn / 4))) (fn % 4) false)
        (fn % 4) = false) := by
  have h4 : ∀ fn : Nat, fn % 4 < 4 := fun fn => Nat.mod_lt _ (by norm_num)
  constructor
  · intro chip fn cfg hfn hbp
    exact ⟨rfl, enab_false _ _ (h4 fn), enab_true_final _ _ _ (h4 fn),
      bp_final _ _ _ (h4 fn) hbp⟩
  · intro chip fn hfn
    exact ⟨rfl, enab_false _ _ (h4 fn)⟩

/-- Witness for C7 on filter 5 of an all-zero chip: the configured path
issues disable, object, mask, then pointer-plus-enable writes (value
0x8200 sets `FLTEN1` and `F1BP = 2`), and the `none` path stops after
the disable write. -/
theorem claim_C7_filter_disable_order_witness :
    (configure_filter chipZero 5 (some filterCfgSample) =
      (.ok (),
       [SpiEvent.readReg 0x1D4, SpiEvent.writeReg 0x1D4 0,
        SpiEvent.readReg 0x218, SpiEvent.writeReg 0x218 3,
        SpiEvent.readReg 0x21C, SpiEvent.writeReg 0x21C 7,
        SpiEvent.readReg 0x1D4, SpiEvent.writeReg 0x1D4 0x8200]) ∧
     filter_control_is_enabled 0 1 = false ∧
     filter_control_is_enabled 0x8200 1 = true ∧
     filter_control_get_bp 0x8200 1 = 2) ∧
    (configure_filter chipZero 5 none =
      (.ok (), [SpiEvent.readReg 0x1D4, SpiEvent.writeReg 0x1D4 0]) ∧
     filter_control_is_enabled 0 1 = false) :=
  ⟨claim_C7_filter_disable_order.1 chipZero 5 filterCfgSample (by decide) (by decide),
   claim_C7_filter_disable_order.2 chipZero 5 (by decide)⟩

/-- Claim C8 counterexample: the `From<Error>` conversion does not wrap
an SPI transport failure in `Other`; it reports it as the
configuration-mode timeout variant. -/
theorem claim_C8_counterexample :
    configErrorOfError .SPIRead = .ConfigurationModeTimeout ∧
    configErrorOfError .SPIRead ≠ .Other .SPIRead ∧
    configErrorOfError .SPIWrite ≠ .Other .SPIWrite := by
  refine ⟨rfl, by decide, by decide⟩

/-- Claim C8 (amended): when the chip never reports the requested mode,
the five polls of `set_op_mode` end in `ChangeOpModeTimeout` (a
configuration error, not a transport error); the `From<Error>`
conversion keeps non-transport errors distinct by wrapping them in
`Other`, but — contrary to the original claim — it maps the transport
errors `SPIRead` and `SPIWrite` to the `ConfigurationModeTimeout`
variant instead of wrapping them. -/
theorem claim_C8_mode_timeout_amended :
    (∀ (chip : Chip) (mode : OperationMode),
      opmode (read_sfr_value chip C1CON_ADDR) ≠ mode →
      set_op_mode chip mode =
        (.error .ChangeOpModeTimeout,
         [SpiEvent.readReg C1CON_ADDR,
          SpiEvent.writeReg C1CON_ADDR
            (set_opmode (read_sfr_value chip C1CON_ADDR) mode),
          SpiEvent.readReg C1CON_ADDR, SpiEvent.readReg C1CON_ADDR,
          SpiEvent.readReg C1CON_ADDR, SpiEvent.readReg C1CON_ADDR,
          SpiEvent.readReg C1CON_ADDR])) ∧
    configErrorOfError .SPIRead = .ConfigurationModeTimeout ∧
    configErrorOfError .SPIWrite = .ConfigurationModeTimeout ∧
    (∀ e : Error, e ≠ .SPIRead → e ≠ .SPIWrite → configErrorOfError e = .Other e) := by
  refine ⟨?_, rfl, rfl, ?_⟩
  · intro chip mode h
    simp only [set_op_mode, MAX_OP_MODE_ATTEMPTS, op_mode_poll, if_neg h]
    rfl
  · intro e h1 h2
    cases e <;> first | rfl | exact absurd rfl h1 | exact absurd rfl h2

/-- Witness for the amended C8: an all-zero chip reports `NormalCanFD`,
so requesting `Configuration` mode polls five times and fails with the
mode-change timeout (the requested mode is written to `reqop`, bits
26..24, hence the value 0x4000000), and `TxQueueDisabled` wraps into
`Other`. -/
theorem claim_C8_mode_timeout_amended_witness :
    set_op_mode chipZero .Configuration =
      (.error .ChangeOpModeTimeout,
       [SpiEvent.readReg C1CON_ADDR, SpiEvent.writeReg C1CON_ADDR 0x4000000,
        SpiEvent.readReg C1CON_ADDR, SpiEvent.readReg C1CON_ADDR,
        SpiEvent.readReg C1CON_ADDR, SpiEvent.readReg C1CON_ADDR,
        SpiEvent.readReg C1CON_ADDR]) ∧
    configErrorOfError .TxQueueDisabled = .Other .TxQueueDisabled :=
  ⟨claim_C8_mode_timeout_amended.1 chipZero .Configuration (by decide),
   claim_C8_mode_timeout_amended.2.2.2 .TxQueueDisabled (by decide) (by decide)⟩

/-- Claim C9 (code bug): `read_sfr`, `read_ram` and `write_ram` tag a
transport failure by the phase that failed (`SPIRead`, `SPIRead`,
`SPIWrite`), but `write_sfr` — whose data phase is a write — reports a
failed transaction as `SPIRead` (src/spi.rs line 1105), contradicting
the documented meaning of the two variants. -/
theorem claim_C9_error_phase_tags :
    write_sfr_result false C1CON_ADDR 0 = .error .SPIRead ∧
    Error.SPIRead ≠ Error.SPIWrite ∧
    read_sfr_result chipZero false C1CON_ADDR = .error .SPIRead ∧
    read_ram_result chipZero false RAM_BASE_ADDRESS 4 = .error .SPIRead ∧
    write_ram_result false RAM_BASE_ADDRESS 4 = .error .SPIWrite ∧
    write_sfr_result true C1CON_ADDR 0 = .ok () :=
  ⟨rfl, by decide, rfl, rfl, rfl, rfl⟩

/-- Claim C10: `tx_queue_push_message` reads the CAN control register
first and, whenever `TXQEN` is clear, returns `TxQueueDisabled` with a
trace containing only that single register read — before any capacity
check, fullness check, RAM write or increment write. -/
theorem claim_C10_txq_disabled_gate :
    ∀ (chip : Chip) (m : TxMessage),
      txqen (read_sfr_value chip C1CON_ADDR) = false →
      tx_queue_push_message chip m =
        (.err .TxQueueDisabled, [SpiEvent.readReg C1CON_ADDR]) := by
  intro chip m h
  simp only [tx_queue_push_message, h]
  rfl

/-- Witness for C10: the all-zero chip has `TXQEN` clear, so pushing any
message is rejected after the single `C1CON` read. -/
theorem claim_C10_txq_disabled_gate_witness :
    txqen (read_sfr_value chipZero C1CON_ADDR) = false ∧
    tx_queue_push_message chipZero msg4 =
      (.err .TxQueueDisabled, [SpiEvent.readReg C1CON_ADDR]) :=
  ⟨by decide, claim_C10_txq_disabled_gate chipZero msg4 (by decide)⟩
